import Mathlib

/-!
# Verification of the `simple_bank` transfer core and API handlers

Shallow embedding of the Go sources:
* `db/sqlc/store.go` — `execTx`, `TransferTx`, `addMoney` (translated statement
  by statement; the transaction closure's final `return nil` is kept as in the
  source).
* the sqlc query layer (`CreateTransfer`, `CreateEntry`, `AddAccountBalance`,
  `GetAccount`, `CreateUser`) is not present under `src/`; those primitives are
  modelled from the spec (§4.1): single-statement atomic row operations against
  a relational state.
* `api/transfer.go` — `createTransfer` handler and `validAccount`.
* `api/user.go` — `createUserResponse` construction.
* `token/payload.go`, `token/jwt_maker.go`, `token/paseto_maker.go` —
  `VerifyToken` decision logic; the third-party parse/decrypt primitives are
  modelled abstractly as an authenticated envelope.

Go `int64` values are modelled as `Int`; storage failures are injected through
an explicit `Oracle` so that theorems can quantify over which step of a
transaction fails.
-/

namespace SimpleBank

/-- Errors of the storage layer and the transaction driver.  `noRows` is
`sql.ErrNoRows`; `inject n` stands for an arbitrary storage failure (tagged so
distinct failures are distinguishable); `combined e rb` is the
`fmt.Errorf("tx err: %v, rb err: %v", ...)` value built by `execTx` when the
rollback itself also fails. -/
inductive DBError where
  | noRows : DBError
  | inject : Nat → DBError
  | combined : DBError → DBError → DBError
deriving Repr, DecidableEq

/-- Account row (`accounts` table). -/
structure Account where
  id : Int
  owner : String
  balance : Int
  currency : String
deriving Repr, DecidableEq

/-- Entry row (`entries` table): one signed ledger line on one account. -/
structure Entry where
  id : Int
  accountID : Int
  amount : Int
deriving Repr, DecidableEq

/-- Transfer row (`transfers` table). -/
structure Transfer where
  id : Int
  fromAccountID : Int
  toAccountID : Int
  amount : Int
deriving Repr, DecidableEq

/-- Go zero value of `Account`. -/
def zeroAccount : Account := ⟨0, "", 0, ""⟩

/-- Go zero value of `Entry`. -/
def zeroEntry : Entry := ⟨0, 0, 0⟩

/-- Go zero value of `Transfer`. -/
def zeroTransfer : Transfer := ⟨0, 0, 0, 0⟩

/-- State of the relational store.  `accounts` maps an account id to its row;
`entries` and `transfers` are the table contents in insertion order;
`trace` records every executed `AddAccountBalance` statement as a pair
`(account id, signed delta)` in execution order (the instrumentation the spec
asks for when checking the lock-order invariant). -/
structure DBState where
  accounts : Int → Option Account
  entries : List Entry
  transfers : List Transfer
  nextEntryID : Int
  nextTransferID : Int
  trace : List (Int × Int)

/-- Injected failure plan for one `TransferTx` call: each field is `none` when
the corresponding operation succeeds at the storage level and `some e` when it
fails with error `e`.  Fields follow the call order inside `TransferTx`. -/
structure Oracle where
  beginErr : Option DBError
  createTransferErr : Option DBError
  createEntry1Err : Option DBError
  createEntry2Err : Option DBError
  addBalance1Err : Option DBError
  addBalance2Err : Option DBError
  rollbackErr : Option DBError
  commitErr : Option DBError
  getAccount1Err : Option DBError
  getAccount2Err : Option DBError
deriving Repr, DecidableEq

/-- The oracle of a run in which the storage layer never fails. -/
def Oracle.allOk : Oracle := ⟨none, none, none, none, none, none, none, none, none, none⟩

namespace Db

/-- Modelled from the spec (§4.1, sqlc query code absent from `src/`):
`CreateTransfer` inserts a transfer row with a server-assigned id and returns
the persisted row. -/
def createTransfer (s : DBState) (fromAccountID toAccountID amount : Int) :
    Transfer × DBState :=
  let t : Transfer :=
    { id := s.nextTransferID, fromAccountID := fromAccountID,
      toAccountID := toAccountID, amount := amount }
  (t, { s with transfers := s.transfers ++ [t],
               nextTransferID := s.nextTransferID + 1 })

/-- Modelled from the spec (§4.1, sqlc query code absent from `src/`):
`CreateEntry` inserts an entry row with a server-assigned id and returns the
persisted row. -/
def createEntry (s : DBState) (accountID amount : Int) : Entry × DBState :=
  let e : Entry := { id := s.nextEntryID, accountID := accountID, amount := amount }
  (e, { s with entries := s.entries ++ [e], nextEntryID := s.nextEntryID + 1 })

/-- Modelled from the spec (§4.1, sqlc query code absent from `src/`):
`AddAccountBalance` is the atomic `UPDATE ... SET balance = balance + delta ...
RETURNING *` statement; it fails with `sql.ErrNoRows` when the account does not
exist.  Executed statements are appended to the trace. -/
def addAccountBalance (s : DBState) (id amount : Int) :
    Except DBError (Account × DBState) :=
  match s.accounts id with
  | none => .error DBError.noRows
  | some a =>
    let updated : Account := { a with balance := a.balance + amount }
    .ok (updated,
      { s with accounts := fun i => if i = id then some updated else s.accounts i,
               trace := s.trace ++ [(id, amount)] })

/-- Modelled from the spec (§4.1, sqlc query code absent from `src/`):
`GetAccount` fetches an account row by primary key, `sql.ErrNoRows` on a miss. -/
def getAccount (s : DBState) (id : Int) : Except DBError Account :=
  match s.accounts id with
  | none => .error DBError.noRows
  | some a => .ok a

/-- `CreateTransfer` as seen through the failure oracle. -/
def createTransferQ (oerr : Option DBError) (s : DBState)
    (fromAccountID toAccountID amount : Int) : Except DBError (Transfer × DBState) :=
  match oerr with
  | some e => .error e
  | none => .ok (createTransfer s fromAccountID toAccountID amount)

/-- `CreateEntry` as seen through the failure oracle. -/
def createEntryQ (oerr : Option DBError) (s : DBState) (accountID amount : Int) :
    Except DBError (Entry × DBState) :=
  match oerr with
  | some e => .error e
  | none => .ok (createEntry s accountID amount)

/-- `AddAccountBalance` as seen through the failure oracle. -/
def addAccountBalanceQ (oerr : Option DBError) (s : DBState) (id amount : Int) :
    Except DBError (Account × DBState) :=
  match oerr with
  | some e => .error e
  | none => addAccountBalance s id amount

/-- `GetAccount` as seen through the failure oracle. -/
def getAccountQ (oerr : Option DBError) (s : DBState) (id : Int) :
    Except DBError Account :=
  match oerr with
  | some e => .error e
  | none => getAccount s id

/-- `TransferTxParams` of `db/sqlc/store.go`. -/
structure TransferTxParams where
  fromAccountID : Int
  toAccountID : Int
  amount : Int
deriving Repr, DecidableEq

/-- `TransferTxResult` of `db/sqlc/store.go`. -/
structure TransferTxResult where
  transfer : Transfer
  fromAccount : Account
  toAccount : Account
  fromEntry : Entry
  toEntry : Entry
deriving Repr, DecidableEq

/-- Go zero value of `TransferTxResult` (`var result TransferTxResult`). -/
def emptyResult : TransferTxResult := ⟨zeroTransfer, zeroAccount, zeroAccount, zeroEntry, zeroEntry⟩

/-- `addMoney` of `db/sqlc/store.go`: update the two balances in argument
order, returning early on the first failure (named return values start as Go
zero values). -/
def addMoney (o1 o2 : Option DBError) (s : DBState)
    (accountID1 amount1 accountID2 amount2 : Int) :
    Account × Account × Option DBError × DBState :=
  match addAccountBalanceQ o1 s accountID1 amount1 with
  | .error e => (zeroAccount, zeroAccount, some e, s)
  | .ok (a1, s1) =>
    match addAccountBalanceQ o2 s1 accountID2 amount2 with
    | .error e => (a1, zeroAccount, some e, s1)
    | .ok (a2, s2) => (a1, a2, none, s2)

/-- The transaction closure passed by `TransferTx` to `execTx`
(`db/sqlc/store.go` lines 68–108), translated statement by statement.  It
returns the closure's error result, the `result` record as assigned so far,
and the transaction-local state.  Note the source ends the closure with
`return nil` (not `return err`) after the balance-update step, so a failure of
`addMoney` is not propagated. -/
def transferTxFn (o : Oracle) (arg : TransferTxParams) (s : DBState) :
    Option DBError × TransferTxResult × DBState :=
  match createTransferQ o.createTransferErr s arg.fromAccountID arg.toAccountID arg.amount with
  | .error e => (some e, emptyResult, s)
  | .ok (t, s1) =>
    match createEntryQ o.createEntry1Err s1 arg.fromAccountID (-arg.amount) with
    | .error e => (some e, { emptyResult with transfer := t }, s1)
    | .ok (e1, s2) =>
      match createEntryQ o.createEntry2Err s2 arg.toAccountID arg.amount with
      | .error e => (some e, { emptyResult with transfer := t, fromEntry := e1 }, s2)
      | .ok (e2, s3) =>
        if arg.fromAccountID < arg.toAccountID then
          match addMoney o.addBalance1Err o.addBalance2Err s3
              arg.fromAccountID (-arg.amount) arg.toAccountID arg.amount with
          | (fa, ta, _, s4) =>
            (none, { transfer := t, fromAccount := fa, toAccount := ta,
                     fromEntry := e1, toEntry := e2 }, s4)
        else
          match addMoney o.addBalance1Err o.addBalance2Err s3
              arg.toAccountID arg.amount arg.fromAccountID (-arg.amount) with
          | (ta, fa, _, s4) =>
            (none, { transfer := t, fromAccount := fa, toAccount := ta,
                     fromEntry := e1, toEntry := e2 }, s4)

/-- `execTx` of `db/sqlc/store.go`: begin a transaction, run `fn` on the
transaction-bound view, roll back on failure (combining the two errors if the
rollback also fails), otherwise commit.  The third component is the state
visible outside the transaction after the call: the original state unless a
commit succeeded. -/
def execTx (o : Oracle) (s : DBState)
    (fn : DBState → Option DBError × TransferTxResult × DBState) :
    Option DBError × TransferTxResult × DBState :=
  match o.beginErr with
  | some e => (some e, emptyResult, s)
  | none =>
    match fn s with
    | (some e, res, _) =>
      match o.rollbackErr with
      | some rbErr => (some (DBError.combined e rbErr), res, s)
      | none => (some e, res, s)
    | (none, res, committed) =>
      match o.commitErr with
      | some ce => (some ce, res, s)
      | none => (none, res, committed)

/-- `TransferTx` of `db/sqlc/store.go`: run the transfer closure inside
`execTx` and return `(result, err)` together with the post-call persistent
state. -/
def TransferTx (o : Oracle) (s : DBState) (arg : TransferTxParams) :
    TransferTxResult × Option DBError × DBState :=
  match execTx o s (transferTxFn o arg) with
  | (err, res, s2) => (res, err, s2)

end Db

/-- `IsSupportedCurrency` of `util` (source: the currency block of
`src/util/config.go`): `USD`, `EUR`, `Ksh`. -/
def IsSupportedCurrency (currency : String) : Bool :=
  currency = "USD" || currency = "EUR" || currency = "Ksh"

namespace Api

/-- HTTP status codes the handlers under `src/api` write. -/
inductive HTTPStatus where
  | ok
  | badRequest
  | notFound
  | forbidden
  | internalServerError
  | unauthorized
deriving Repr, DecidableEq

/-- `transferRequest` of `src/api/transfer.go`. -/
structure transferRequest where
  fromAccountID : Int
  toAccountID : Int
  amount : Int
  currency : String
deriving Repr, DecidableEq

/-- The gin binding validation of `transferRequest`:
`from_account_id`/`to_account_id` are `required,min=1`, `amount` is
`required,gt=0`, `currency` is `required,currency` (the custom validator of
`src/api/validator.go`, which calls `util.IsSupportedCurrency`). -/
def bindTransferRequest (r : transferRequest) : Bool :=
  decide (1 ≤ r.fromAccountID) && decide (1 ≤ r.toAccountID) &&
    decide (0 < r.amount) && IsSupportedCurrency r.currency

/-- `validAccount` of `src/api/transfer.go`: fetch the account; on
`sql.ErrNoRows` write 404, on any other storage error write 500, on a currency
mismatch write 400; `none` means the account passed. -/
def validAccount (oerr : Option DBError) (s : DBState) (accountID : Int)
    (currency : String) : Option HTTPStatus :=
  match Db.getAccountQ oerr s accountID with
  | .error DBError.noRows => some HTTPStatus.notFound
  | .error _ => some HTTPStatus.internalServerError
  | .ok account =>
    if account.currency ≠ currency then some HTTPStatus.badRequest else none

/-- Observable outcome of the `POST /transfers` handler: the status written,
whether `TransferTx` was invoked, the result serialized on success, and the
post-call persistent state. -/
structure TransferHandlerOutcome where
  status : HTTPStatus
  transferTxCalled : Bool
  body : Option Db.TransferTxResult
  state : DBState

/-- `createTransfer` of `src/api/transfer.go`: bind/validate the request,
check both accounts with `validAccount`, then run `TransferTx`; a `TransferTx`
error is mapped to 500, success to 200 with the result as body. -/
def createTransfer (o : Oracle) (s : DBState) (req : transferRequest) :
    TransferHandlerOutcome :=
  if bindTransferRequest req then
    match validAccount o.getAccount1Err s req.fromAccountID req.currency with
    | some st => ⟨st, false, none, s⟩
    | none =>
      match validAccount o.getAccount2Err s req.toAccountID req.currency with
      | some st => ⟨st, false, none, s⟩
      | none =>
        match Db.TransferTx o s ⟨req.fromAccountID, req.toAccountID, req.amount⟩ with
        | (_, some _, s2) => ⟨HTTPStatus.internalServerError, true, none, s2⟩
        | (res, none, s2) => ⟨HTTPStatus.ok, true, some res, s2⟩
  else ⟨HTTPStatus.badRequest, false, none, s⟩

/-- User row (`users` table). -/
structure User where
  username : String
  hashedPassword : String
  fullName : String
  email : String
  passwordChangedAt : Int
  createdAt : Int
deriving Repr, DecidableEq

/-- `createUserResponse` of `src/api/user.go`. -/
structure createUserResponse where
  username : String
  hashedPassword : String
  fullName : String
  email : String
  passwordChangedAt : Int
  createdAt : Int
deriving Repr, DecidableEq

/-- The response record built by `createUser` on success
(`src/api/user.go` lines 72–78): the Go composite literal never assigns
`HashedPassword`, so that field keeps its zero value `""`. -/
def makeCreateUserResponse (user : User) : createUserResponse :=
  { username := user.username
    hashedPassword := ""
    fullName := user.fullName
    email := user.email
    passwordChangedAt := user.passwordChangedAt
    createdAt := user.createdAt }

/-- The store-facing tail of `createUser` (`src/api/user.go` lines 57–82):
map a uniqueness violation to 403, any other store failure to 500, and on
success respond 200 with `makeCreateUserResponse` of the stored row. -/
def createUser (storeResult : Except DBError User) :
    HTTPStatus × Option createUserResponse :=
  match storeResult with
  | .error (DBError.inject 23505) => (HTTPStatus.forbidden, none)
  | .error _ => (HTTPStatus.internalServerError, none)
  | .ok user => (HTTPStatus.ok, some (makeCreateUserResponse user))

end Api

namespace Token

/-- `Payload` of `src/token/payload.go` (the uuid is modelled as a `Nat`,
times as integer instants). -/
structure Payload where
  id : Nat
  username : String
  issuedAt : Int
  expiredAt : Int
deriving Repr, DecidableEq

/-- The two error values of `src/token/payload.go`: `ErrExpiredToken` and
`ErrInvalidToken` (distinct error values; callers compare by identity). -/
inductive TokenError where
  | expired
  | invalid
deriving Repr, DecidableEq

/-- `Payload.Valid` of `src/token/payload.go`: reject with `ErrExpiredToken`
when `time.Now().After(payload.ExpiredAt)`. -/
def Payload.Valid (now : Int) (payload : Payload) : Option TokenError :=
  if payload.expiredAt < now then some TokenError.expired else none

/-- Abstract view of a token string as the verifier sees it: `intact key p`
is a token produced with `key` whose bytes were not modified, `wrongAlg` a
token signed with a non-HMAC method, `garbage` anything tampered with or
malformed (authenticated encryption / MAC verification fails on it). -/
inductive TokenData where
  | intact : String → Payload → TokenData
  | wrongAlg : Payload → TokenData
  | garbage : TokenData
deriving Repr, DecidableEq

/-- Outcome of `jwt.ParseWithClaims` as used by `JWTMaker.VerifyToken`:
the library checks the signing method via the key callback, verifies the MAC,
and calls `Claims.Valid()`; an expired claim surfaces as a validation error
whose `Inner` is `ErrExpiredToken`, every other failure as a different
validation error. -/
inductive ParseError where
  | expiredClaims
  | other
deriving Repr, DecidableEq

/-- Modelled behaviour of `jwt.ParseWithClaims` with the key callback of
`src/token/jwt_maker.go`: non-HMAC method and bad MAC fail generically;
an intact token for the right key is accepted iff its claims validate. -/
def jwtParseWithClaims (key : String) (now : Int) (t : TokenData) :
    Except ParseError Payload :=
  match t with
  | TokenData.intact k p =>
    if k = key then
      match Payload.Valid now p with
      | some TokenError.expired => Except.error ParseError.expiredClaims
      | some TokenError.invalid => Except.error ParseError.other
      | none => Except.ok p
    else Except.error ParseError.other
  | TokenData.wrongAlg _ => Except.error ParseError.other
  | TokenData.garbage => Except.error ParseError.other

/-- `VerifyToken` of `src/token/jwt_maker.go`: parse, map an expired-claims
validation error to `ErrExpiredToken` and every other parse failure to
`ErrInvalidToken`. -/
def JWTMaker.VerifyToken (key : String) (now : Int) (t : TokenData) :
    Except TokenError Payload :=
  match jwtParseWithClaims key now t with
  | Except.error ParseError.expiredClaims => Except.error TokenError.expired
  | Except.error ParseError.other => Except.error TokenError.invalid
  | Except.ok p => Except.ok p

/-- Modelled behaviour of `paseto.Decrypt` (authenticated decryption):
succeeds exactly on an intact token produced with the same symmetric key. -/
def pasetoDecrypt (key : String) (t : TokenData) : Except Unit Payload :=
  match t with
  | TokenData.intact k p => if k = key then Except.ok p else Except.error ()
  | TokenData.wrongAlg _ => Except.error ()
  | TokenData.garbage => Except.error ()

/-- `VerifyToken` of `src/token/paseto_maker.go`: any decryption failure maps
to `ErrInvalidToken`; then `payload.Valid()` is consulted and its error
returned as-is. -/
def PasetoMaker.VerifyToken (key : String) (now : Int) (t : TokenData) :
    Except TokenError Payload :=
  match pasetoDecrypt key t with
  | Except.error _ => Except.error TokenError.invalid
  | Except.ok payload =>
    match Payload.Valid now payload with
    | some e => Except.error e
    | none => Except.ok payload

end Token

/-- Concrete account fixture: id 1, balance 100 USD. -/
def acctA : Account := ⟨1, "alice", 100, "USD"⟩

/-- Concrete account fixture: id 2, balance 50 USD. -/
def acctB : Account := ⟨2, "bob", 50, "USD"⟩

/-- Concrete store fixture holding `acctA` and `acctB` and empty ledgers. -/
def s0 : DBState :=
  { accounts := fun i => if i = 1 then some acctA else if i = 2 then some acctB else none
    entries := []
    transfers := []
    nextEntryID := 1
    nextTransferID := 1
    trace := [] }

/-- Oracle of a run in which only the first `AddAccountBalance` statement of
step d fails. -/
def oracleBalance1Fails : Oracle :=
  { Oracle.allOk with addBalance1Err := some (DBError.inject 9) }

/-- Oracle of a run in which only the second `AddAccountBalance` statement of
step d fails. -/
def oracleBalance2Fails : Oracle :=
  { Oracle.allOk with addBalance2Err := some (DBError.inject 7) }

/-- The balance recorded for account `id`, when the account exists. -/
def balanceOf (s : DBState) (id : Int) : Option Int :=
  Option.map Account.balance (s.accounts id)

/-- C1: the claim fails on the code.  `TransferTx(1, 2, 30)` on accounts
1 (balance 100) and 2 (balance 50), with the second balance update of step d
failing: because the transaction closure ends with `return nil` instead of
`return err` (`store.go` line 106), the step-d error is swallowed and the
transaction commits — the post-call state shows a new Transfer, two new
Entries, and account 1 debited to 70 while account 2 still holds 50, and the
call reports no error. -/
theorem transferTx_stepD_failure_commits_partial_write :
    (Db.TransferTx oracleBalance2Fails s0 ⟨1, 2, 30⟩).2.1 = none ∧
    (Db.TransferTx oracleBalance2Fails s0 ⟨1, 2, 30⟩).2.2.transfers = [⟨1, 1, 2, 30⟩] ∧
    (Db.TransferTx oracleBalance2Fails s0 ⟨1, 2, 30⟩).2.2.entries =
      [⟨1, 1, -30⟩, ⟨2, 2, 30⟩] ∧
    balanceOf (Db.TransferTx oracleBalance2Fails s0 ⟨1, 2, 30⟩).2.2 1 = some 70 ∧
    balanceOf (Db.TransferTx oracleBalance2Fails s0 ⟨1, 2, 30⟩).2.2 2 = some 50 := by
  decide

/-- C2: the claim fails on the code.  `TransferTx(1, 2, 30)` with the first
balance update of step d failing: the closure's final `return nil` discards the
step error, the transaction commits the transfer and both entries, and
`TransferTx` returns a success value (`err = nil`) even though a step failed. -/
theorem transferTx_stepD_failure_returns_success :
    (Db.TransferTx oracleBalance1Fails s0 ⟨1, 2, 30⟩).2.1 = none ∧
    (Db.TransferTx oracleBalance1Fails s0 ⟨1, 2, 30⟩).2.2.transfers = [⟨1, 1, 2, 30⟩] ∧
    (Db.TransferTx oracleBalance1Fails s0 ⟨1, 2, 30⟩).2.2.entries =
      [⟨1, 1, -30⟩, ⟨2, 2, 30⟩] ∧
    balanceOf (Db.TransferTx oracleBalance1Fails s0 ⟨1, 2, 30⟩).2.2 1 = some 100 ∧
    balanceOf (Db.TransferTx oracleBalance1Fails s0 ⟨1, 2, 30⟩).2.2 2 = some 50 := by
  decide

/-- C3: in every `TransferTx` call with distinct account ids that reaches
step d, the two `AddAccountBalance` statements are executed in ascending order
of account id: the traced update sequence extends the prior trace with the
smaller id first, whichever direction the transfer has. -/
theorem transferTx_balance_updates_ascending (s : DBState) (arg : Db.TransferTxParams)
    (accF accT : Account)
    (hf : s.accounts arg.fromAccountID = some accF)
    (ht : s.accounts arg.toAccountID = some accT)
    (hne : arg.fromAccountID ≠ arg.toAccountID) :
    min arg.fromAccountID arg.toAccountID < max arg.fromAccountID arg.toAccountID ∧
    ∃ d1 d2,
      (Db.TransferTx Oracle.allOk s arg).2.2.trace =
        s.trace ++ [(min arg.fromAccountID arg.toAccountID, d1),
                    (max arg.fromAccountID arg.toAccountID, d2)] := by
  rcases lt_trichotomy arg.fromAccountID arg.toAccountID with hlt | heq | hgt
  · have h2 : arg.toAccountID ≠ arg.fromAccountID := Ne.symm hne
    rw [min_eq_left hlt.le, max_eq_right hlt.le]
    refine ⟨hlt, -arg.amount, arg.amount, ?_⟩
    simp [Db.TransferTx, Db.execTx, Db.transferTxFn, Db.createTransferQ,
      Db.createEntryQ, Db.addMoney, Db.addAccountBalanceQ, Db.addAccountBalance,
      Db.createTransfer, Db.createEntry, Oracle.allOk, hf, ht, hlt, h2]
  · exact absurd heq hne
  · have hnlt : ¬ arg.fromAccountID < arg.toAccountID := lt_asymm hgt
    rw [min_eq_right hgt.le, max_eq_left hgt.le]
    refine ⟨hgt, arg.amount, -arg.amount, ?_⟩
    simp [Db.TransferTx, Db.execTx, Db.transferTxFn, Db.createTransferQ,
      Db.createEntryQ, Db.addMoney, Db.addAccountBalanceQ, Db.addAccountBalance,
      Db.createTransfer, Db.createEntry, Oracle.allOk, hf, ht, hnlt, hne]

/-- C3 witness: the transfer `2 → 1` of amount 30 on the concrete store still
updates account 1 (the smaller id) first. -/
theorem transferTx_balance_updates_ascending_witness :
    min (2 : Int) 1 < max (2 : Int) 1 ∧
    ∃ d1 d2,
      (Db.TransferTx Oracle.allOk s0 ⟨2, 1, 30⟩).2.2.trace =
        s0.trace ++ [(min (2 : Int) 1, d1), (max (2 : Int) 1, d2)] :=
  transferTx_balance_updates_ascending s0 ⟨2, 1, 30⟩ acctB acctA
    (by decide) (by decide) (by decide)

/-- C4: every successful `TransferTx` of amount `a` between distinct existing
accounts debits the source by `a`, credits the destination by `a`, conserves
the sum of the two balances, and returns a transfer of amount `a` with entries
`-a` on the source and `+a` on the destination. -/
theorem transferTx_conservation (s : DBState) (arg : Db.TransferTxParams)
    (accF accT : Account)
    (hf : s.accounts arg.fromAccountID = some accF)
    (ht : s.accounts arg.toAccountID = some accT)
    (hne : arg.fromAccountID ≠ arg.toAccountID) :
    (Db.TransferTx Oracle.allOk s arg).2.1 = none ∧
    (Db.TransferTx Oracle.allOk s arg).1.fromAccount.balance = accF.balance - arg.amount ∧
    (Db.TransferTx Oracle.allOk s arg).1.toAccount.balance = accT.balance + arg.amount ∧
    (Db.TransferTx Oracle.allOk s arg).1.fromAccount.balance +
        (Db.TransferTx Oracle.allOk s arg).1.toAccount.balance =
      accF.balance + accT.balance ∧
    (Db.TransferTx Oracle.allOk s arg).1.transfer.amount = arg.amount ∧
    (Db.TransferTx Oracle.allOk s arg).1.fromEntry.amount = -arg.amount ∧
    (Db.TransferTx Oracle.allOk s arg).1.toEntry.amount = arg.amount ∧
    balanceOf (Db.TransferTx Oracle.allOk s arg).2.2 arg.fromAccountID =
      some (accF.balance - arg.amount) ∧
    balanceOf (Db.TransferTx Oracle.allOk s arg).2.2 arg.toAccountID =
      some (accT.balance + arg.amount) := by
  rcases lt_trichotomy arg.fromAccountID arg.toAccountID with hlt | heq | hgt
  · have h2 : arg.toAccountID ≠ arg.fromAccountID := Ne.symm hne
    simp [Db.TransferTx, Db.execTx, Db.transferTxFn, Db.createTransferQ,
      Db.createEntryQ, Db.addMoney, Db.addAccountBalanceQ, Db.addAccountBalance,
      Db.createTransfer, Db.createEntry, Oracle.allOk, balanceOf, hf, ht, hlt, h2, hne]
    omega
  · exact absurd heq hne
  · have h2 : arg.toAccountID ≠ arg.fromAccountID := Ne.symm hne
    have hnlt : ¬ arg.fromAccountID < arg.toAccountID := lt_asymm hgt
    simp [Db.TransferTx, Db.execTx, Db.transferTxFn, Db.createTransferQ,
      Db.createEntryQ, Db.addMoney, Db.addAccountBalanceQ, Db.addAccountBalance,
      Db.createTransfer, Db.createEntry, Oracle.allOk, balanceOf, hf, ht, hnlt, hne, h2]
    omega

/-- C4 witness: the spec's concrete scenario — accounts with balances 100 and
50, transfer of 30: result balances 70 and 80, transfer amount 30, entry
amounts −30 and +30, and persisted balances 70 and 80. -/
theorem transferTx_conservation_witness :
    (Db.TransferTx Oracle.allOk s0 ⟨1, 2, 30⟩).2.1 = none ∧
    (Db.TransferTx Oracle.allOk s0 ⟨1, 2, 30⟩).1.fromAccount.balance = 70 ∧
    (Db.TransferTx Oracle.allOk s0 ⟨1, 2, 30⟩).1.toAccount.balance = 80 ∧
    (Db.TransferTx Oracle.allOk s0 ⟨1, 2, 30⟩).1.fromAccount.balance +
        (Db.TransferTx Oracle.allOk s0 ⟨1, 2, 30⟩).1.toAccount.balance = 150 ∧
    (Db.TransferTx Oracle.allOk s0 ⟨1, 2, 30⟩).1.transfer.amount = 30 ∧
    (Db.TransferTx Oracle.allOk s0 ⟨1, 2, 30⟩).1.fromEntry.amount = -30 ∧
    (Db.TransferTx Oracle.allOk s0 ⟨1, 2, 30⟩).1.toEntry.amount = 30 ∧
    balanceOf (Db.TransferTx Oracle.allOk s0 ⟨1, 2, 30⟩).2.2 1 = some 70 ∧
    balanceOf (Db.TransferTx Oracle.allOk s0 ⟨1, 2, 30⟩).2.2 2 = some 80 :=
  transferTx_conservation s0 ⟨1, 2, 30⟩ acctA acctB (by decide) (by decide) (by decide)

/-- C6: a `TransferTx` whose source and destination ids are equal succeeds,
leaves the account's balance unchanged (the `+amount` and `−amount` deltas
cancel), and still records one Transfer and the two Entries. -/
theorem transferTx_self_transfer (s : DBState) (X a : Int) (acc : Account)
    (hx : s.accounts X = some acc) :
    (Db.TransferTx Oracle.allOk s ⟨X, X, a⟩).2.1 = none ∧
    balanceOf (Db.TransferTx Oracle.allOk s ⟨X, X, a⟩).2.2 X = some acc.balance ∧
    (Db.TransferTx Oracle.allOk s ⟨X, X, a⟩).2.2.transfers =
      s.transfers ++ [⟨s.nextTransferID, X, X, a⟩] ∧
    (Db.TransferTx Oracle.allOk s ⟨X, X, a⟩).2.2.entries =
      s.entries ++ [⟨s.nextEntryID, X, -a⟩, ⟨s.nextEntryID + 1, X, a⟩] := by
  have hnlt : ¬ (X < X) := lt_irrefl X
  simp [Db.TransferTx, Db.execTx, Db.transferTxFn, Db.createTransferQ,
    Db.createEntryQ, Db.addMoney, Db.addAccountBalanceQ, Db.addAccountBalance,
    Db.createTransfer, Db.createEntry, Oracle.allOk, balanceOf, hx, hnlt]

/-- C6 witness: a self-transfer of 30 on account 1 (balance 100) succeeds,
keeps the balance at 100, and creates a transfer and two entries. -/
theorem transferTx_self_transfer_witness :
    (Db.TransferTx Oracle.allOk s0 ⟨1, 1, 30⟩).2.1 = none ∧
    balanceOf (Db.TransferTx Oracle.allOk s0 ⟨1, 1, 30⟩).2.2 1 = some 100 ∧
    (Db.TransferTx Oracle.allOk s0 ⟨1, 1, 30⟩).2.2.transfers = [⟨1, 1, 1, 30⟩] ∧
    (Db.TransferTx Oracle.allOk s0 ⟨1, 1, 30⟩).2.2.entries =
      [⟨1, 1, -30⟩, ⟨2, 1, 30⟩] :=
  transferTx_self_transfer s0 1 30 acctA (by decide)

/-- A successful `AddAccountBalance` statement changes only the accounts map
and the trace, never the entries or transfers tables. -/
theorem addAccountBalanceQ_ledger (oerr : Option DBError) (s : DBState) (id amount : Int)
    (acc : Account) (s2 : DBState)
    (h : Db.addAccountBalanceQ oerr s id amount = Except.ok (acc, s2)) :
    s2.entries = s.entries ∧ s2.transfers = s.transfers := by
  cases oerr with
  | some e => simp [Db.addAccountBalanceQ] at h
  | none =>
    simp only [Db.addAccountBalanceQ] at h
    unfold Db.addAccountBalance at h
    cases hl : s.accounts id with
    | none => rw [hl] at h; simp at h
    | some a =>
      rw [hl] at h
      simp only [Except.ok.injEq, Prod.mk.injEq] at h
      rcases h with ⟨-, h2⟩
      subst h2
      exact ⟨rfl, rfl⟩

/-- `addMoney` leaves the entries table unchanged. -/
theorem addMoney_ledger_entries (o1 o2 : Option DBError) (s : DBState)
    (i1 a1 i2 a2 : Int) :
    (Db.addMoney o1 o2 s i1 a1 i2 a2).2.2.2.entries = s.entries := by
  unfold Db.addMoney
  cases h1 : Db.addAccountBalanceQ o1 s i1 a1 with
  | error e => simp
  | ok p =>
    rcases p with ⟨acc1, s1⟩
    rcases addAccountBalanceQ_ledger o1 s i1 a1 acc1 s1 h1 with ⟨he1, -⟩
    cases h2 : Db.addAccountBalanceQ o2 s1 i2 a2 with
    | error e => simp [h2, he1]
    | ok q =>
      rcases q with ⟨acc2, s2⟩
      rcases addAccountBalanceQ_ledger o2 s1 i2 a2 acc2 s2 h2 with ⟨he2, -⟩
      simp [h2, he1, he2]

/-- `addMoney` leaves the transfers table unchanged. -/
theorem addMoney_ledger_transfers (o1 o2 : Option DBError) (s : DBState)
    (i1 a1 i2 a2 : Int) :
    (Db.addMoney o1 o2 s i1 a1 i2 a2).2.2.2.transfers = s.transfers := by
  unfold Db.addMoney
  cases h1 : Db.addAccountBalanceQ o1 s i1 a1 with
  | error e => simp
  | ok p =>
    rcases p with ⟨acc1, s1⟩
    rcases addAccountBalanceQ_ledger o1 s i1 a1 acc1 s1 h1 with ⟨-, ht1⟩
    cases h2 : Db.addAccountBalanceQ o2 s1 i2 a2 with
    | error e => simp [h2, ht1]
    | ok q =>
      rcases q with ⟨acc2, s2⟩
      rcases addAccountBalanceQ_ledger o2 s1 i2 a2 acc2 s2 h2 with ⟨-, ht2⟩
      simp [h2, ht1, ht2]

/-- C5: whatever happens inside a `TransferTx` call, the persistent entries
table either is untouched or grows by exactly the debit/credit pair: `−amount`
on the source account and `+amount` on the destination, with consecutive ids. -/
theorem transferTx_entries_only_in_pairs (o : Oracle) (s : DBState)
    (arg : Db.TransferTxParams) :
    (Db.TransferTx o s arg).2.2.entries = s.entries ∨
    (Db.TransferTx o s arg).2.2.entries =
      s.entries ++ [⟨s.nextEntryID, arg.fromAccountID, -arg.amount⟩,
                    ⟨s.nextEntryID + 1, arg.toAccountID, arg.amount⟩] := by
  unfold Db.TransferTx Db.execTx Db.transferTxFn
  cases hb : o.beginErr with
  | some e => simp
  | none =>
    cases hct : o.createTransferErr with
    | some e => cases o.rollbackErr <;> simp [Db.createTransferQ]
    | none =>
      cases he1 : o.createEntry1Err with
      | some e =>
        cases o.rollbackErr <;>
          simp [Db.createTransferQ, Db.createEntryQ, Db.createTransfer]
      | none =>
        cases he2 : o.createEntry2Err with
        | some e =>
          cases o.rollbackErr <;>
            simp [Db.createTransferQ, Db.createEntryQ, Db.createTransfer, Db.createEntry]
        | none =>
          by_cases hlt : arg.fromAccountID < arg.toAccountID <;>
            cases hc : o.commitErr <;>
              simp [Db.createTransferQ, Db.createEntryQ, Db.createTransfer,
                Db.createEntry, hlt, addMoney_ledger_entries]

/-- Whatever happens inside a `TransferTx` call, the persistent transfers
table either is untouched or grows by exactly the one requested transfer row. -/
theorem transferTx_transfers_cases (o : Oracle) (s : DBState)
    (arg : Db.TransferTxParams) :
    (Db.TransferTx o s arg).2.2.transfers = s.transfers ∨
    (Db.TransferTx o s arg).2.2.transfers =
      s.transfers ++ [⟨s.nextTransferID, arg.fromAccountID, arg.toAccountID, arg.amount⟩] := by
  unfold Db.TransferTx Db.execTx Db.transferTxFn
  cases hb : o.beginErr with
  | some e => simp
  | none =>
    cases hct : o.createTransferErr with
    | some e => cases o.rollbackErr <;> simp [Db.createTransferQ]
    | none =>
      cases he1 : o.createEntry1Err with
      | some e =>
        cases o.rollbackErr <;>
          simp [Db.createTransferQ, Db.createEntryQ, Db.createTransfer]
      | none =>
        cases he2 : o.createEntry2Err with
        | some e =>
          cases o.rollbackErr <;>
            simp [Db.createTransferQ, Db.createEntryQ, Db.createTransfer, Db.createEntry]
        | none =>
          by_cases hlt : arg.fromAccountID < arg.toAccountID <;>
            cases hc : o.commitErr <;>
              simp [Db.createTransferQ, Db.createEntryQ, Db.createTransfer,
                Db.createEntry, hlt, addMoney_ledger_transfers]

/-- C7 counterexample: a successful `TransferTx(1, 1, 30)` run commits a
Transfer record whose source account equals its destination account, so the
claimed invariant `source ≠ destination` fails for a record the system
creates. -/
theorem transfer_invariant_counterexample :
    (Db.TransferTx Oracle.allOk s0 ⟨1, 1, 30⟩).2.1 = none ∧
    (Db.TransferTx Oracle.allOk s0 ⟨1, 1, 30⟩).2.2.transfers = [⟨1, 1, 1, 30⟩] ∧
    ((Db.TransferTx Oracle.allOk s0 ⟨1, 1, 30⟩).2.2.transfers.all
      (fun t => !(t.fromAccountID == t.toAccountID))) = false := by
  decide

/-- C7 amended: every Transfer record created through the `POST /transfers`
handler has `amount > 0` (the request binding enforces `gt=0`); the
`source ≠ destination` half of the invariant is not enforced anywhere. -/
theorem handler_created_transfers_have_positive_amount (o : Oracle) (s : DBState)
    (req : Api.transferRequest) (t : Transfer)
    (hmem : t ∈ (Api.createTransfer o s req).state.transfers)
    (hnew : t ∉ s.transfers) :
    0 < t.amount := by
  unfold Api.createTransfer at hmem
  by_cases hbind : Api.bindTransferRequest req = true
  · obtain ⟨⟨⟨-, -⟩, hamt⟩, -⟩ :
        ((1 ≤ req.fromAccountID ∧ 1 ≤ req.toAccountID) ∧ 0 < req.amount) ∧
          IsSupportedCurrency req.currency = true := by
      simpa only [Api.bindTransferRequest, Bool.and_eq_true, decide_eq_true_eq,
        and_assoc] using hbind
    rw [if_pos hbind] at hmem
    cases hv1 : Api.validAccount o.getAccount1Err s req.fromAccountID req.currency with
    | some st => rw [hv1] at hmem; exact absurd hmem hnew
    | none =>
      rw [hv1] at hmem
      cases hv2 : Api.validAccount o.getAccount2Err s req.toAccountID req.currency with
      | some st => rw [hv2] at hmem; exact absurd hmem hnew
      | none =>
        rw [hv2] at hmem
        have hc := transferTx_transfers_cases o s
          ⟨req.fromAccountID, req.toAccountID, req.amount⟩
        rcases hT : Db.TransferTx o s ⟨req.fromAccountID, req.toAccountID, req.amount⟩
          with ⟨res, err, s2⟩
        rw [hT] at hmem hc
        have hmem2 : t ∈ s2.transfers := by
          cases err <;> simpa using hmem
        rcases hc with hc | hc
        · rw [hc] at hmem2; exact absurd hmem2 hnew
        · rw [hc] at hmem2
          rcases List.mem_append.mp hmem2 with hold | hnewmem
          · exact absurd hold hnew
          · rcases List.mem_singleton.mp hnewmem with rfl
            exact hamt
  · rw [if_neg hbind] at hmem
    exact absurd hmem hnew

/-- C7 amended witness: a successful handler call on the concrete store
creates the transfer record `⟨1, 1, 2, 30⟩`, and the theorem yields its
positive amount. -/
theorem handler_created_transfers_have_positive_amount_witness :
    0 < (⟨1, 1, 2, 30⟩ : Transfer).amount :=
  handler_created_transfers_have_positive_amount Oracle.allOk s0 ⟨1, 2, 30, "USD"⟩
    ⟨1, 1, 2, 30⟩ (by decide) (by decide)

/-- C8: for both token makers, `VerifyToken` rejects an intact token for the
maker's key whose expiry has passed with the expired-token error, and rejects
tampered or malformed material — garbage bytes, a token sealed under a
different key, a token using a non-HMAC algorithm — with the generic
invalid-token error, so expired-vs-invalid is the only observable distinction. -/
theorem verifyToken_expired_vs_invalid (key k : String) (now : Int)
    (p : Token.Payload) (hexp : p.expiredAt < now) (hk : k ≠ key) :
    Token.PasetoMaker.VerifyToken key now (Token.TokenData.intact key p) =
      Except.error Token.TokenError.expired ∧
    Token.JWTMaker.VerifyToken key now (Token.TokenData.intact key p) =
      Except.error Token.TokenError.expired ∧
    Token.PasetoMaker.VerifyToken key now Token.TokenData.garbage =
      Except.error Token.TokenError.invalid ∧
    Token.JWTMaker.VerifyToken key now Token.TokenData.garbage =
      Except.error Token.TokenError.invalid ∧
    Token.PasetoMaker.VerifyToken key now (Token.TokenData.intact k p) =
      Except.error Token.TokenError.invalid ∧
    Token.JWTMaker.VerifyToken key now (Token.TokenData.intact k p) =
      Except.error Token.TokenError.invalid ∧
    Token.PasetoMaker.VerifyToken key now (Token.TokenData.wrongAlg p) =
      Except.error Token.TokenError.invalid ∧
    Token.JWTMaker.VerifyToken key now (Token.TokenData.wrongAlg p) =
      Except.error Token.TokenError.invalid := by
  simp [Token.PasetoMaker.VerifyToken, Token.JWTMaker.VerifyToken,
    Token.pasetoDecrypt, Token.jwtParseWithClaims, Token.Payload.Valid, hexp, hk]

/-- C8 witness: with key `"s"`, a token expired at instant 5 checked at
instant 10, and an alien key `"x"`, both makers return the expired error on
the intact-but-expired token and the invalid error on every damaged one. -/
theorem verifyToken_expired_vs_invalid_witness :
    Token.PasetoMaker.VerifyToken "s" 10 (Token.TokenData.intact "s" ⟨1, "alice", 0, 5⟩) =
      Except.error Token.TokenError.expired ∧
    Token.JWTMaker.VerifyToken "s" 10 (Token.TokenData.intact "s" ⟨1, "alice", 0, 5⟩) =
      Except.error Token.TokenError.expired ∧
    Token.PasetoMaker.VerifyToken "s" 10 Token.TokenData.garbage =
      Except.error Token.TokenError.invalid ∧
    Token.JWTMaker.VerifyToken "s" 10 Token.TokenData.garbage =
      Except.error Token.TokenError.invalid ∧
    Token.PasetoMaker.VerifyToken "s" 10 (Token.TokenData.intact "x" ⟨1, "alice", 0, 5⟩) =
      Except.error Token.TokenError.invalid ∧
    Token.JWTMaker.VerifyToken "s" 10 (Token.TokenData.intact "x" ⟨1, "alice", 0, 5⟩) =
      Except.error Token.TokenError.invalid ∧
    Token.PasetoMaker.VerifyToken "s" 10 (Token.TokenData.wrongAlg ⟨1, "alice", 0, 5⟩) =
      Except.error Token.TokenError.invalid ∧
    Token.JWTMaker.VerifyToken "s" 10 (Token.TokenData.wrongAlg ⟨1, "alice", 0, 5⟩) =
      Except.error Token.TokenError.invalid :=
  verifyToken_expired_vs_invalid "s" "x" 10 ⟨1, "alice", 0, 5⟩ (by decide) (by decide)

/-- C9: the `POST /transfers` handler invokes `TransferTx` only after both
accounts were found and matched the declared currency; a missing account makes
it respond 404 and a currency mismatch 400, in both cases without calling
`TransferTx`. -/
theorem createTransfer_handler_validates_accounts (o : Oracle) (s : DBState)
    (req : Api.transferRequest)
    (hg1 : o.getAccount1Err = none) (hg2 : o.getAccount2Err = none)
    (hbind : Api.bindTransferRequest req = true) :
    (s.accounts req.fromAccountID = none →
      (Api.createTransfer o s req).status = Api.HTTPStatus.notFound ∧
      (Api.createTransfer o s req).transferTxCalled = false) ∧
    (∀ ax, s.accounts req.fromAccountID = some ax → ax.currency ≠ req.currency →
      (Api.createTransfer o s req).status = Api.HTTPStatus.badRequest ∧
      (Api.createTransfer o s req).transferTxCalled = false) ∧
    (∀ ax, s.accounts req.fromAccountID = some ax → ax.currency = req.currency →
      s.accounts req.toAccountID = none →
      (Api.createTransfer o s req).status = Api.HTTPStatus.notFound ∧
      (Api.createTransfer o s req).transferTxCalled = false) ∧
    (∀ ax ay, s.accounts req.fromAccountID = some ax → ax.currency = req.currency →
      s.accounts req.toAccountID = some ay → ay.currency ≠ req.currency →
      (Api.createTransfer o s req).status = Api.HTTPStatus.badRequest ∧
      (Api.createTransfer o s req).transferTxCalled = false) ∧
    ((Api.createTransfer o s req).transferTxCalled = true →
      ∃ ax ay, s.accounts req.fromAccountID = some ax ∧ ax.currency = req.currency ∧
        s.accounts req.toAccountID = some ay ∧ ay.currency = req.currency) := by
  refine ⟨?_, ?_, ?_, ?_, ?_⟩
  · intro hf
    simp [Api.createTransfer, hbind, Api.validAccount, Db.getAccountQ, Db.getAccount,
      hg1, hf]
  · intro ax hf hcur
    simp [Api.createTransfer, hbind, Api.validAccount, Db.getAccountQ, Db.getAccount,
      hg1, hf, hcur]
  · intro ax hf hcur hto
    simp [Api.createTransfer, hbind, Api.validAccount, Db.getAccountQ, Db.getAccount,
      hg1, hg2, hf, hcur, hto]
  · intro ax ay hf hcur hto hycur
    simp [Api.createTransfer, hbind, Api.validAccount, Db.getAccountQ, Db.getAccount,
      hg1, hg2, hf, hcur, hto, hycur]
  · intro hcalled
    rcases hf : s.accounts req.fromAccountID with _ | ax
    · simp [Api.createTransfer, hbind, Api.validAccount, Db.getAccountQ,
        Db.getAccount, hg1, hf] at hcalled
    · by_cases hcur : ax.currency = req.currency
      · rcases hto : s.accounts req.toAccountID with _ | ay
        · simp [Api.createTransfer, hbind, Api.validAccount, Db.getAccountQ,
            Db.getAccount, hg1, hg2, hf, hcur, hto] at hcalled
        · by_cases hycur : ay.currency = req.currency
          · exact ⟨ax, ay, rfl, hcur, rfl, hycur⟩
          · simp [Api.createTransfer, hbind, Api.validAccount, Db.getAccountQ,
              Db.getAccount, hg1, hg2, hf, hcur, hto, hycur] at hcalled
      · simp [Api.createTransfer, hbind, Api.validAccount, Db.getAccountQ,
          Db.getAccount, hg1, hf, hcur] at hcalled

/-- C9 witness: the theorem instantiated on the concrete store and the request
`{from: 1, to: 2, amount: 30, currency: USD}`. -/
theorem createTransfer_handler_validates_accounts_witness :
    (s0.accounts (1 : Int) = none →
      (Api.createTransfer Oracle.allOk s0 ⟨1, 2, 30, "USD"⟩).status = Api.HTTPStatus.notFound ∧
      (Api.createTransfer Oracle.allOk s0 ⟨1, 2, 30, "USD"⟩).transferTxCalled = false) ∧
    (∀ ax, s0.accounts (1 : Int) = some ax → ax.currency ≠ "USD" →
      (Api.createTransfer Oracle.allOk s0 ⟨1, 2, 30, "USD"⟩).status = Api.HTTPStatus.badRequest ∧
      (Api.createTransfer Oracle.allOk s0 ⟨1, 2, 30, "USD"⟩).transferTxCalled = false) ∧
    (∀ ax, s0.accounts (1 : Int) = some ax → ax.currency = "USD" →
      s0.accounts (2 : Int) = none →
      (Api.createTransfer Oracle.allOk s0 ⟨1, 2, 30, "USD"⟩).status = Api.HTTPStatus.notFound ∧
      (Api.createTransfer Oracle.allOk s0 ⟨1, 2, 30, "USD"⟩).transferTxCalled = false) ∧
    (∀ ax ay, s0.accounts (1 : Int) = some ax → ax.currency = "USD" →
      s0.accounts (2 : Int) = some ay → ay.currency ≠ "USD" →
      (Api.createTransfer Oracle.allOk s0 ⟨1, 2, 30, "USD"⟩).status = Api.HTTPStatus.badRequest ∧
      (Api.createTransfer Oracle.allOk s0 ⟨1, 2, 30, "USD"⟩).transferTxCalled = false) ∧
    ((Api.createTransfer Oracle.allOk s0 ⟨1, 2, 30, "USD"⟩).transferTxCalled = true →
      ∃ ax ay, s0.accounts (1 : Int) = some ax ∧ ax.currency = "USD" ∧
        s0.accounts (2 : Int) = some ay ∧ ay.currency = "USD") :=
  createTransfer_handler_validates_accounts Oracle.allOk s0 ⟨1, 2, 30, "USD"⟩
    rfl rfl (by decide)

/-- C10: the user-creation success response never carries the stored password
hash: its hashed-password field is the empty string, and the handler response
is unchanged when the stored hash is replaced by any other value. -/
theorem createUser_response_hides_hash (user : Api.User) (h : String) :
    (Api.makeCreateUserResponse user).hashedPassword = "" ∧
    Api.createUser (Except.ok { user with hashedPassword := h }) =
      Api.createUser (Except.ok user) :=
  ⟨rfl, rfl⟩

end SimpleBank
